import Mathlib

/-!
Verification of the one-shot prompt runner in `src/examples/hello-world.py`.

The script loads `.env.local` (a key=value file), builds an agent with a
fixed model identifier, a fixed system prompt and a credential read from
the `GOOGLE_API_KEY` environment variable, issues one synchronous request
with a fixed user message, and prints the `data` field of the result.

The external library call (`Agent.run_sync`) is not part of this
repository; it is modelled by an oracle parameter giving the outcome of
the single call.  Everything else is translated directly from the module
body of the script.
-/

/-- Process environment: maps variable names to optional string values,
mirroring `os.environ` as queried by `os.getenv`. -/
def Env : Type := String → Option String

/-- Split a list of characters at its first `=`, giving the parts before
and after; a list without `=` gives nothing. -/
def breakEq : List Char → Option (List Char × List Char)
  | [] => none
  | c :: cs =>
      if c = '=' then some ([], cs)
      else
        match breakEq cs with
        | none => none
        | some (k, v) => some (c :: k, v)

/-- Split a list of characters into lines at each newline character. -/
def splitLines : List Char → List (List Char)
  | [] => [[]]
  | c :: cs =>
      if c = '\n' then [] :: splitLines cs
      else
        match splitLines cs with
        | [] => [[c]]
        | l :: ls => (c :: l) :: ls

/-- Parse one line of a dotenv file.  A line without a `=` separator
yields nothing; otherwise the text before the first `=` is the key and
the remainder is the value. -/
def parseLine (line : List Char) : Option (String × String) :=
  (breakEq line).map (fun p => (String.mk p.1, String.mk p.2))

/-- Parse a dotenv file into its key=value pairs, line by line. -/
def parseDotenv (contents : String) : List (String × String) :=
  (splitLines contents.data).filterMap parseLine

/-- Last binding of a key in a list of pairs: later lines of the file
override earlier ones, as in the dictionary built by the dotenv parse. -/
def lookupLast (ps : List (String × String)) (k : String) : Option String :=
  ps.foldl (fun acc p => if p.1 = k then some p.2 else acc) none

/-- `load_dotenv(".env.local")`: values from the file are added to the
process environment, but variables already present are not overridden
(the default `override=False` of the library). -/
def loadDotenv (fileVars : List (String × String)) (env : Env) : Env :=
  fun k =>
    match env k with
    | some v => some v
    | none => lookupLast fileVars k

/-- Agent configuration (spec section 3): provider-qualified model
identifier, system prompt, optional credential. -/
structure AgentConfig where
  model_identifier : String
  system_prompt : String
  api_key : Option String
deriving DecidableEq

/-- The result object returned by the synchronous run: the textual output
in `data` plus implementation-defined metadata, unused by the script. -/
structure RunResult where
  data : String
  metadata : List (String × String)
deriving DecidableEq

/-- Failure classes of the external call (spec section 4.1). -/
inductive AgentError
  | authentication
  | modelUnavailable
  | network
deriving DecidableEq

/-- Modelled from the spec: `Agent.run_sync` of the external library is
not part of this repository, so a run of the script is parameterised by
an oracle giving the outcome of the single synchronous call for a given
configuration and user message. -/
def Oracle : Type := AgentConfig → String → Except AgentError RunResult

/-- Modelled from the spec: "Output: response string, guaranteed
non-empty on success" (section 4.1) — the contract the external runner
satisfies when the model identifier is valid and a credential resolves. -/
def SpecOracle (o : Oracle) : Prop :=
  ∀ cfg msg r, o cfg msg = Except.ok r → r.data ≠ ""

/-- The model identifier hard-coded in the script. -/
def modelId : String := "google-gla:gemini-1.5-flash"

/-- The system prompt hard-coded in the script. -/
def systemPromptText : String := "Be concise, reply with one sentence."

/-- The user message hard-coded in the script. -/
def userMessage : String := "Where does \"hello world\" come from?"

/-- The name of the environment variable holding the credential. -/
def credentialVar : String := "GOOGLE_API_KEY"

/-- The dotenv file name passed to `load_dotenv`. -/
def dotenvPath : String := ".env.local"

/-- Observable steps of one process run, listed in the order the module
body of the script executes them. -/
inductive Event
  | loadEnvFile
  | readCredential (key : String)
  | constructAgent (cfg : AgentConfig)
  | runSyncCall (msg : String)
  | receiveResponse
  | writeStdout (s : String)
deriving DecidableEq

/-- Recognise the event of calling the synchronous run interface. -/
def isRunSyncCall : Event → Bool
  | .runSyncCall _ => true
  | _ => false

/-- The user messages sent over a run, read off its trace. -/
def sentMessages (t : List Event) : List String :=
  t.filterMap (fun ev =>
    match ev with
    | Event.runSyncCall m => some m
    | _ => none)

/-- Everything one process run produces: its ordered step trace, the
lines written to standard output, the files it writes, its exit code and
the diagnostic trace of an unhandled error, when one occurred. -/
structure ScriptOutcome where
  trace : List Event
  stdout : List String
  fileWrites : List (String × String)
  exitCode : Nat
  errorTrace : Option AgentError
deriving DecidableEq

/-- The configuration the script builds:
`Agent('google-gla:gemini-1.5-flash', system_prompt=..., api_key=os.getenv("GOOGLE_API_KEY"))`,
where `os.getenv` runs after `load_dotenv(".env.local")`. -/
def configOf (procEnv : Env) (dotenvFile : String) : AgentConfig :=
  { model_identifier := modelId
    system_prompt := systemPromptText
    api_key := loadDotenv (parseDotenv dotenvFile) procEnv credentialVar }

/-- One run of the module body of `hello-world.py`: load `.env.local`,
read the credential, construct the agent, issue the single synchronous
request, and on success print `result.data`; an error of the call
propagates unhandled (the script has no try/except), terminating the
process with exit code 1 and a diagnostic trace. -/
def runScript (procEnv : Env) (dotenvFile : String) (o : Oracle) : ScriptOutcome :=
  let cfg := configOf procEnv dotenvFile
  let pre : List Event :=
    [Event.loadEnvFile, Event.readCredential credentialVar,
     Event.constructAgent cfg, Event.runSyncCall userMessage]
  match o cfg userMessage with
  | Except.ok r =>
      { trace := pre ++ [Event.receiveResponse, Event.writeStdout r.data]
        stdout := [r.data]
        fileWrites := []
        exitCode := 0
        errorTrace := none }
  | Except.error e =>
      { trace := pre
        stdout := []
        fileWrites := []
        exitCode := 1
        errorTrace := some e }

/-- Ambient state that could persist between two process runs: a file
system (file name to contents) and the process environment. -/
structure World where
  files : String → Option String
  env : Env

/-- Apply a list of file writes to a world (the script performs none). -/
def applyFileWrites : List (String × String) → World → World
  | [], w => w
  | (name, contents) :: rest, w =>
      applyFileWrites rest
        { w with files := fun n => if n = name then some contents else w.files n }

/-- One process run inside a world: the script reads `.env.local` from
the file system (a missing file behaves as an empty one) and the process
environment; the world after the run reflects the file writes of the run. -/
def runInWorld (w : World) (o : Oracle) : ScriptOutcome × World :=
  let out := runScript w.env ((w.files dotenvPath).getD "") o
  (out, applyFileWrites out.fileWrites w)

/-- The empty process environment, used as a concrete sample input. -/
def envEmpty : Env := fun _ => none

/-- A concrete oracle whose single call succeeds. -/
def oracleOk : Oracle := fun _ _ => Except.ok { data := "Hi.", metadata := [] }

/-- A concrete oracle whose single call fails with a transport error. -/
def oracleErr : Oracle := fun _ _ => Except.error AgentError.network

/-- A concrete world with no files and an empty environment. -/
def worldEmpty : World := { files := fun _ => none, env := envEmpty }

/-- C1: for every successful run whose oracle meets the contract of the
spec (non-empty response string on success), the returned response string
is non-empty and is exactly what the script prints to standard output. -/
theorem c1_success_prints_nonempty_response
    (procEnv : Env) (file : String) (o : Oracle) (r : RunResult)
    (hspec : SpecOracle o)
    (hok : o (configOf procEnv file) userMessage = Except.ok r) :
    r.data ≠ "" ∧ (runScript procEnv file o).stdout = [r.data] := by
  refine ⟨hspec _ _ _ hok, ?_⟩
  unfold runScript
  simp only [hok]

/-- C1 witness: the theorem applied at the empty environment and a
concrete succeeding oracle. -/
theorem c1_witness :
    ({ data := "Hi.", metadata := [] } : RunResult).data ≠ "" ∧
    (runScript envEmpty "" oracleOk).stdout =
      [({ data := "Hi.", metadata := [] } : RunResult).data] :=
  c1_success_prints_nonempty_response envEmpty "" oracleOk _
    (fun _ _ r h => by injection h with h; subst h; decide) rfl

/-- C2: the script installs no handler and no retry: an error outcome of
the single call propagates, giving exit code 1, the diagnostic trace and
no printed output, with exactly one issued call; a success gives exit
code 0 after exactly the printed response, again with one issued call. -/
theorem c2_errors_propagate_unhandled
    (procEnv : Env) (file : String) (o : Oracle) :
    (∀ e, o (configOf procEnv file) userMessage = Except.error e →
        (runScript procEnv file o).exitCode = 1 ∧
        (runScript procEnv file o).errorTrace = some e ∧
        (runScript procEnv file o).stdout = [] ∧
        (runScript procEnv file o).trace.countP (fun ev => isRunSyncCall ev) = 1) ∧
    (∀ r, o (configOf procEnv file) userMessage = Except.ok r →
        (runScript procEnv file o).exitCode = 0 ∧
        (runScript procEnv file o).errorTrace = none ∧
        (runScript procEnv file o).stdout = [r.data] ∧
        (runScript procEnv file o).trace.countP (fun ev => isRunSyncCall ev) = 1) := by
  constructor
  · intro e he
    unfold runScript
    simp [he, List.countP_cons, isRunSyncCall]
  · intro r hr
    unfold runScript
    simp [hr, List.countP_cons, isRunSyncCall]

/-- C2 witness: the theorem applied at a concrete failing oracle. -/
theorem c2_witness :
    (runScript envEmpty "" oracleErr).exitCode = 1 ∧
    (runScript envEmpty "" oracleErr).errorTrace = some AgentError.network ∧
    (runScript envEmpty "" oracleErr).stdout = [] ∧
    (runScript envEmpty "" oracleErr).trace.countP (fun ev => isRunSyncCall ev) = 1 :=
  (c2_errors_propagate_unhandled envEmpty "" oracleErr).1 AgentError.network rfl

/-- C3: every process run issues exactly one call to the synchronous run
interface, carrying the single user-message string, and leaves the world
unchanged — no session or history state survives the run. -/
theorem c3_single_request_no_retained_state (w : World) (o : Oracle) :
    (runInWorld w o).1.trace.countP (fun ev => isRunSyncCall ev) = 1 ∧
    sentMessages (runInWorld w o).1.trace = [userMessage] ∧
    (runInWorld w o).2 = w := by
  unfold runInWorld runScript
  cases h : o (configOf w.env ((w.files dotenvPath).getD "")) userMessage <;>
    simp [h, List.countP_cons, isRunSyncCall, sentMessages, applyFileWrites]

/-- C4: the credential of the configuration is the value of
`GOOGLE_API_KEY` as seen after the `.env.local` key=value file has been
loaded: a variable already set in the process environment wins, and an
otherwise-unset variable takes the value given in the file. -/
theorem c4_credential_from_env_after_dotenv
    (procEnv : Env) (file : String) :
    (configOf procEnv file).api_key
        = loadDotenv (parseDotenv file) procEnv credentialVar ∧
    (∀ v, procEnv credentialVar = some v →
        (configOf procEnv file).api_key = some v) ∧
    (procEnv credentialVar = none →
        (configOf procEnv file).api_key = lookupLast (parseDotenv file) credentialVar) := by
  refine ⟨rfl, ?_, ?_⟩
  · intro v hv
    unfold configOf loadDotenv
    simp [hv]
  · intro hn
    unfold configOf loadDotenv
    simp [hn]

/-- A concrete environment binding the credential variable. -/
def envWithKey : Env :=
  fun k => if k = "GOOGLE_API_KEY" then some "sk-test" else none

/-- C4 witness: with the variable set in the process environment the
configuration carries that value even though the file binds it too, and
with it unset the configuration takes the value parsed from the file. -/
theorem c4_witness :
    (configOf envWithKey "GOOGLE_API_KEY=from-file").api_key = some "sk-test" ∧
    lookupLast (parseDotenv "GOOGLE_API_KEY=abc") credentialVar = some "abc" ∧
    (configOf envEmpty "GOOGLE_API_KEY=abc").api_key
        = lookupLast (parseDotenv "GOOGLE_API_KEY=abc") credentialVar :=
  ⟨(c4_credential_from_env_after_dotenv envWithKey "GOOGLE_API_KEY=from-file").2.1
      "sk-test" (by decide),
   by decide,
   (c4_credential_from_env_after_dotenv envEmpty "GOOGLE_API_KEY=abc").2.2 rfl⟩

/-- C5 counterexample: the claim asserts exactly one write to standard
output on every run, but a run whose single call fails writes nothing. -/
theorem c5_counterexample :
    ¬ (runScript envEmpty "" oracleErr).stdout.length = 1 := by decide

/-- C5 amended: every run issues exactly one outbound call and persists
no file; a successful run makes exactly one write to standard output,
the printed response, while a failing run makes none. -/
theorem c5_side_effects (w : World) (o : Oracle) :
    (runInWorld w o).1.trace.countP (fun ev => isRunSyncCall ev) = 1 ∧
    (runInWorld w o).1.fileWrites = [] ∧
    (runInWorld w o).2 = w ∧
    (∀ r, o (configOf w.env ((w.files dotenvPath).getD "")) userMessage = Except.ok r →
        (runInWorld w o).1.stdout = [r.data]) ∧
    (∀ e, o (configOf w.env ((w.files dotenvPath).getD "")) userMessage = Except.error e →
        (runInWorld w o).1.stdout = []) := by
  unfold runInWorld runScript
  cases h : o (configOf w.env ((w.files dotenvPath).getD "")) userMessage <;>
    simp [List.countP_cons, isRunSyncCall, applyFileWrites, h]

/-- C5 witness: the amended theorem applied at a concrete world and a
concrete succeeding oracle. -/
theorem c5_witness : (runInWorld worldEmpty oracleOk).1.stdout = ["Hi."] :=
  (c5_side_effects worldEmpty oracleOk).2.2.2.1 { data := "Hi.", metadata := [] } rfl

/-- C6: the observable steps of a run happen in the fixed program order —
dotenv load, credential read, agent construction, the single request,
then on success receipt of the single response followed by the single
write to standard output; a failing run performs exactly the same ordered
four-step beginning and nothing more, so no step repeats or reorders. -/
theorem c6_step_order (procEnv : Env) (file : String) (o : Oracle) :
    (∀ r, o (configOf procEnv file) userMessage = Except.ok r →
        (runScript procEnv file o).trace =
          [Event.loadEnvFile, Event.readCredential credentialVar,
           Event.constructAgent (configOf procEnv file),
           Event.runSyncCall userMessage, Event.receiveResponse,
           Event.writeStdout r.data]) ∧
    (∀ e, o (configOf procEnv file) userMessage = Except.error e →
        (runScript procEnv file o).trace =
          [Event.loadEnvFile, Event.readCredential credentialVar,
           Event.constructAgent (configOf procEnv file),
           Event.runSyncCall userMessage]) := by
  constructor
  · intro r hr
    unfold runScript
    simp [hr]
  · intro e he
    unfold runScript
    simp [he]

/-- C6 witness: the theorem applied at the empty environment and the
concrete succeeding oracle gives the full six-step trace. -/
theorem c6_witness :
    (runScript envEmpty "" oracleOk).trace =
      [Event.loadEnvFile, Event.readCredential credentialVar,
       Event.constructAgent (configOf envEmpty ""),
       Event.runSyncCall userMessage, Event.receiveResponse,
       Event.writeStdout "Hi."] :=
  (c6_step_order envEmpty "" oracleOk).1 { data := "Hi.", metadata := [] } rfl

/-- C7: two consecutive runs share no state: a run leaves the world
unchanged, so a second run started after it behaves exactly as it would
from the initial world, whatever the first oracle and outcome were; and
the outcome of a run depends only on its own environment and on the
contents of its own dotenv file. -/
theorem c7_runs_independent (w : World) (o1 o2 : Oracle) :
    (runInWorld w o1).2 = w ∧
    runInWorld (runInWorld w o1).2 o2 = runInWorld w o2 ∧
    (∀ w2 : World, w2.env = w.env → w2.files dotenvPath = w.files dotenvPath →
        (runInWorld w2 o2).1 = (runInWorld w o2).1) := by
  have hworld : (runInWorld w o1).2 = w := by
    unfold runInWorld runScript
    cases h : o1 (configOf w.env ((w.files dotenvPath).getD "")) userMessage <;>
      simp [h, applyFileWrites]
  refine ⟨hworld, by rw [hworld], ?_⟩
  intro w2 henv hfiles
  unfold runInWorld
  rw [henv, hfiles]

/-- A concrete world holding an unrelated file, for the C7 witness. -/
def worldOther : World :=
  { files := fun n => if n = "other.txt" then some "x" else none
    env := envEmpty }

/-- C7 witness: the theorem applied at concrete worlds and oracles; the
two worlds differ in an unrelated file yet give the same outcome. -/
theorem c7_witness :
    (runInWorld worldEmpty oracleErr).2 = worldEmpty ∧
    (runInWorld worldOther oracleOk).1 = (runInWorld worldEmpty oracleOk).1 :=
  ⟨(c7_runs_independent worldEmpty oracleErr oracleOk).1,
   (c7_runs_independent worldEmpty oracleErr oracleOk).2.2 worldOther rfl (by decide)⟩

/-- C8: with `GOOGLE_API_KEY` unset in both the process environment and
the dotenv file, the configuration carries `none` — not the empty
string — as its credential, the script still issues its single call with
no credential check of its own, and a non-zero exit can only arise from
an error returned by the external call. -/
theorem c8_missing_credential_passes_none
    (procEnv : Env) (file : String) (o : Oracle)
    (henv : procEnv credentialVar = none)
    (hfile : lookupLast (parseDotenv file) credentialVar = none) :
    (configOf procEnv file).api_key = none ∧
    (configOf procEnv file).api_key ≠ some "" ∧
    (runScript procEnv file o).trace.countP (fun ev => isRunSyncCall ev) = 1 ∧
    ((runScript procEnv file o).exitCode ≠ 0 →
        ∃ e, o (configOf procEnv file) userMessage = Except.error e) := by
  have hkey : (configOf procEnv file).api_key = none := by
    unfold configOf loadDotenv
    simp [henv, hfile]
  refine ⟨hkey, by simp [hkey], ?_, ?_⟩
  · unfold runScript
    cases h : o (configOf procEnv file) userMessage <;>
      simp [h, List.countP_cons, isRunSyncCall]
  · intro hexit
    unfold runScript at hexit
    cases h : o (configOf procEnv file) userMessage with
    | ok r => simp [h] at hexit
    | error e => exact ⟨e, rfl⟩

/-- C8 witness: the theorem applied at the empty environment, an empty
dotenv file and the concrete failing oracle. -/
theorem c8_witness :
    (configOf envEmpty "").api_key = none ∧
    (configOf envEmpty "").api_key ≠ some "" ∧
    (runScript envEmpty "" oracleErr).trace.countP (fun ev => isRunSyncCall ev) = 1 ∧
    ((runScript envEmpty "" oracleErr).exitCode ≠ 0 →
        ∃ e, oracleErr (configOf envEmpty "") userMessage = Except.error e) :=
  c8_missing_credential_passes_none envEmpty "" oracleErr rfl (by decide)

/-- C9: the model identifier, the system prompt and the user message are
literal constants of the script: configurations built under arbitrary
environments and dotenv files agree everywhere except possibly the
credential, and every run sends exactly the one fixed message. -/
theorem c9_fixed_config
    (env1 env2 : Env) (f1 f2 : String) (o : Oracle) (k : Option String) :
    (configOf env1 f1).model_identifier = "google-gla:gemini-1.5-flash" ∧
    (configOf env1 f1).system_prompt = "Be concise, reply with one sentence." ∧
    { configOf env1 f1 with api_key := k } = { configOf env2 f2 with api_key := k } ∧
    sentMessages (runScript env1 f1 o).trace =
      ["Where does \"hello world\" come from?"] := by
  refine ⟨rfl, rfl, rfl, ?_⟩
  show sentMessages (runScript env1 f1 o).trace = [userMessage]
  unfold runScript
  cases h : o (configOf env1 f1) userMessage <;>
    simp [h, sentMessages]

/-- C10: a successful run prints exactly the `data` field of the
response; the metadata of the response never reaches standard output, so
two runs whose responses differ only in metadata have identical
outcomes. -/
theorem c10_prints_data_only
    (procEnv : Env) (file : String) (o : Oracle) (r : RunResult)
    (hok : o (configOf procEnv file) userMessage = Except.ok r) :
    (runScript procEnv file o).stdout = [r.data] ∧
    (∀ d m1 m2,
        runScript procEnv file (fun _ _ => Except.ok { data := d, metadata := m1 }) =
        runScript procEnv file (fun _ _ => Except.ok { data := d, metadata := m2 })) := by
  constructor
  · unfold runScript
    simp [hok]
  · intro d m1 m2
    rfl

/-- C10 witness: the theorem applied at the empty environment and the
concrete succeeding oracle. -/
theorem c10_witness : (runScript envEmpty "" oracleOk).stdout = ["Hi."] :=
  (c10_prints_data_only envEmpty "" oracleOk { data := "Hi.", metadata := [] } rfl).1
